import Mathlib

/-!
Verification of the job lifecycle client of the OpenSearch cluster dev tool.

The definitions below are a shallow embedding of the JavaScript source:

* `src/frontend/src/pages/clusterDevUI.js` — configuration state, task
  toggling, validation (`getValidationErrors`), launch payload assembly
  (`handleLaunchJob`), and registry refresh (`fetchJobs`/`fetchJobDetails`).
* `src/frontend/src/components/JobStatusPolling.js` — the per-job status
  poller (`useJobStatusPolling`/`pollJobStatus`).
* `src/frontend/src/components/BenchmarkResultsTable.js` — the benchmark
  results table parser.

JavaScript objects whose key set is data (request payloads) are embedded as
association lists in construction order; JS truthiness on strings is
`≠ ""`, on numbers `≠ 0`.
-/

namespace ClusterDev

/-- Model of JS `String.prototype.trim`: strip leading and trailing
whitespace.  Defined structurally over the character list so it reduces
in the kernel. -/
def jsTrim (s : String) : String :=
  ⟨((s.data.dropWhile Char.isWhitespace).reverse.dropWhile
      Char.isWhitespace).reverse⟩

/-- Model of JS `String.prototype.split` with a one-character separator
(the source only ever splits on `"\n"` and `"|"`): cut the character
list at every occurrence of `sep`, keeping empty pieces. -/
def splitCharAux (sep : Char) : List Char → List Char → List String
  | [], acc => [⟨acc.reverse⟩]
  | c :: cs, acc =>
    if c = sep then (⟨acc.reverse⟩ : String) :: splitCharAux sep cs []
    else splitCharAux sep cs (c :: acc)

/-- JS `s.split(sep)` for a one-character separator. -/
def jsSplit (s : String) (sep : Char) : List String :=
  splitCharAux sep s.data []

/-- The three task-selection flags (`selectedTasks` state in clusterDevUI.js). -/
structure SelectedTasks where
  build : Bool
  deploy : Bool
  benchmark : Bool
deriving DecidableEq, Repr

/-- A custom parameter list entry (CustomParameters rows); opaque key/value. -/
abbrev ParamList := List (String × String)

/-- The full configuration field set (`config` state in clusterDevUI.js,
lines 29–66, plus `subnet_id` which is referenced by `handleTaskToggle`
and `handleLaunchJob` though absent from the initial state; an undefined
JS field and `""` behave identically under the truthiness tests used). -/
structure Config where
  manifest_yml : String
  custom_build_params : ParamList
  suffix : String
  distribution_url : String
  security_disabled : Bool
  cpu_arch : String
  single_node_cluster : Bool
  data_instance_type : String
  data_node_count : Nat
  dist_version : String
  min_distribution : Bool
  server_access_type : String
  restrict_server_access_to : String
  use_50_percent_heap : Bool
  is_internal : Bool
  custom_deploy_params : ParamList
  admin_password : String
  cluster_endpoint : String
  workload_type : String
  pipeline : String
  custom_benchmark_params : ParamList
  use_ec2_benchmark : Bool
  instance_type : String
  key_name : String
  subnet_id : String
  timeout_minutes : Nat
  s3_bucket : String
deriving DecidableEq, Repr

/-- The initial configuration state (`useState` initializer, lines 29–66). -/
def defaultConfig : Config where
  manifest_yml := ""
  custom_build_params := []
  suffix := ""
  distribution_url := ""
  security_disabled := true
  cpu_arch := "arm64"
  single_node_cluster := false
  data_instance_type := "r6g.large"
  data_node_count := 3
  dist_version := "3.0.0"
  min_distribution := false
  server_access_type := ""
  restrict_server_access_to := ""
  use_50_percent_heap := true
  is_internal := false
  custom_deploy_params := []
  admin_password := ""
  cluster_endpoint := ""
  workload_type := "percolator"
  pipeline := "benchmark-only"
  custom_benchmark_params := []
  use_ec2_benchmark := false
  instance_type := "t4g.medium"
  key_name := ""
  subnet_id := ""
  timeout_minutes := 60
  s3_bucket := ""

/-- `getValidationErrors` (clusterDevUI.js lines 316–361), translated
branch for branch.  Note that the "no task selected" push is a separate
`if` statement: the subsequent `if build && benchmark && !deploy … else
{field checks}` still runs its `else` branch when no task is selected,
so the always-on S3 bucket check can still fire. -/
def getValidationErrors (selectedTasks : SelectedTasks) (config : Config) :
    List String :=
  let errors : List String := []
  let errors :=
    if !selectedTasks.build && !selectedTasks.deploy && !selectedTasks.benchmark
    then errors ++ ["Select at least one task"] else errors
  if selectedTasks.build && selectedTasks.benchmark && !selectedTasks.deploy then
    errors ++ ["Build + Benchmark workflow requires Deploy"]
  else
    let errors :=
      if selectedTasks.build && jsTrim config.manifest_yml == "" then
        errors ++ ["Manifest YAML is required for build"] else errors
    let errors :=
      if selectedTasks.deploy && config.suffix == "" then
        errors ++ ["Deployment suffix is required"] else errors
    let errors :=
      if selectedTasks.deploy && !selectedTasks.build &&
          config.distribution_url == "" then
        errors ++ ["Distribution URL required when not building"] else errors
    let errors :=
      if selectedTasks.benchmark && !selectedTasks.deploy &&
          config.cluster_endpoint == "" then
        errors ++ ["Cluster endpoint required when not deploying"] else errors
    if jsTrim config.s3_bucket == "" then
      errors ++ ["S3 bucket name is required"] else errors

/-- A JSON-ish scalar or parameter-list value carried by the request
payload. -/
inductive JVal where
  | str (s : String)
  | nat (n : Nat)
  | bool (b : Bool)
  | params (l : ParamList)
deriving DecidableEq, Repr

/-!
The request payload assembled by `handleLaunchJob` (clusterDevUI.js lines
213–267) is embedded as an association list in the order the
object-literal spreads insert keys; the four spread groups of the object
literal (build config, deploy config, benchmark config with its nested
EC2 group, S3) become the section definitions below.  The JS conditional
spreads `...(cond && {k: v})` become conditional list segments; string
fields guarded by their own truthiness (`config.distribution_url && {…}`,
`config.cluster_endpoint && {…}`, `config.subnet_id && {…}`) appear only
when nonempty; `config.instance_type || "t4g.medium"` and
`config.timeout_minutes || 60` apply their defaults on the falsy values
`""` and `0`.
-/

/-- `...(selectedTasks.build && {…})` — the build-config spread. -/
def buildSection (selectedTasks : SelectedTasks) (config : Config) :
    List (String × JVal) :=
  if selectedTasks.build then
    [("manifest_yml", JVal.str config.manifest_yml),
     ("custom_build_params", JVal.params config.custom_build_params)]
  else []

/-- `...(selectedTasks.deploy && {…})` — the deploy-config spread. -/
def deploySection (selectedTasks : SelectedTasks) (config : Config) :
    List (String × JVal) :=
  if selectedTasks.deploy then
    [("suffix", JVal.str config.suffix)] ++
    (if config.distribution_url != "" then
      [("distribution_url", JVal.str config.distribution_url)] else []) ++
    [("security_disabled", JVal.bool config.security_disabled),
     ("cpu_arch", JVal.str config.cpu_arch),
     ("data_instance_type", JVal.str config.data_instance_type),
     ("data_node_count", JVal.nat config.data_node_count),
     ("dist_version", JVal.str config.dist_version),
     ("min_distribution", JVal.bool config.min_distribution),
     ("single_node_cluster", JVal.bool config.single_node_cluster),
     ("server_access_type", JVal.str config.server_access_type),
     ("restrict_server_access_to", JVal.str config.restrict_server_access_to),
     ("use_50_percent_heap", JVal.bool config.use_50_percent_heap),
     ("is_internal", JVal.bool config.is_internal),
     ("custom_deploy_params", JVal.params config.custom_deploy_params)] ++
    (if config.admin_password != "" && !config.security_disabled then
      [("admin_password", JVal.str config.admin_password)] else [])
  else []

/-- `...(selectedTasks.deploy && {…})` nested inside the benchmark
spread — the EC2-benchmark sub-group ("only include when deploy is
selected" per the source comment). -/
def ec2Section (selectedTasks : SelectedTasks) (config : Config) :
    List (String × JVal) :=
  if selectedTasks.deploy then
    [("use_ec2_benchmark", JVal.bool config.use_ec2_benchmark),
     ("instance_type", JVal.str
       (if config.instance_type == "" then "t4g.medium"
        else config.instance_type)),
     ("key_name", JVal.str config.key_name)] ++
    (if config.subnet_id != "" then
      [("subnet_id", JVal.str config.subnet_id)] else []) ++
    [("timeout_minutes", JVal.nat
       (if config.timeout_minutes == 0 then 60 else config.timeout_minutes))]
  else []

/-- `...(selectedTasks.benchmark && {…})` — the benchmark-config spread,
carrying the EC2 sub-group. -/
def benchmarkSection (selectedTasks : SelectedTasks) (config : Config) :
    List (String × JVal) :=
  if selectedTasks.benchmark then
    (if config.cluster_endpoint != "" then
      [("cluster_endpoint", JVal.str config.cluster_endpoint)] else []) ++
    [("workload_type", JVal.str config.workload_type),
     ("pipeline", JVal.str config.pipeline),
     ("custom_benchmark_params", JVal.params config.custom_benchmark_params)] ++
    ec2Section selectedTasks config
  else []

/-- The whole `requestPayload` object literal: the four spread groups
followed by the unconditional `s3_bucket` key. -/
def buildRequestPayload (selectedTasks : SelectedTasks) (config : Config) :
    List (String × JVal) :=
  buildSection selectedTasks config ++
  deploySection selectedTasks config ++
  benchmarkSection selectedTasks config ++
  [("s3_bucket", JVal.str config.s3_bucket)]

/-- JS property access `payload[k]` on the assembled object: the value
under key `k` (keys in the payload are unique, so first match is the
property). -/
def lookupKey (k : String) : List (String × JVal) → Option JVal
  | [] => none
  | (k2, v) :: rest => if k2 = k then some v else lookupKey k rest

end ClusterDev

namespace ClusterDev

/-- C1 (counterexample): with no task selected and the default (blank)
S3 bucket, `getValidationErrors` returns TWO errors, not the claimed
one-element list — the no-task error does not short-circuit the
always-on S3 bucket check. -/
theorem c1_counterexample :
    getValidationErrors ⟨false, false, false⟩ defaultConfig =
      ["Select at least one task", "S3 bucket name is required"] ∧
    getValidationErrors ⟨false, false, false⟩ defaultConfig ≠
      ["Select at least one task"] := by decide

/-- C1 (amended): when no task is selected, the validation list is
"Select at least one task" followed by "S3 bucket name is required"
exactly when the S3 bucket field is blank/whitespace-only; no other
field check contributes (every other check is guarded by a selected
task). -/
theorem c1_no_task_errors (config : Config) :
    getValidationErrors ⟨false, false, false⟩ config =
      "Select at least one task" ::
        (if jsTrim config.s3_bucket == "" then ["S3 bucket name is required"]
         else []) := by
  cases h : jsTrim config.s3_bucket == "" <;>
    simp [getValidationErrors, h]

/-- C5: with build and benchmark selected but not deploy, validation
returns exactly `["Build + Benchmark workflow requires Deploy"]` for
every configuration — this branch takes the `if` of the second check, so
the `else` field checks (including the S3 bucket check) are skipped. -/
theorem c5_build_benchmark_requires_deploy (config : Config) :
    getValidationErrors ⟨true, false, true⟩ config =
      ["Build + Benchmark workflow requires Deploy"] := rfl

/-- The keys the payload can carry outside the EC2-benchmark sub-group. -/
def nonEC2Keys : List String :=
  ["manifest_yml", "custom_build_params", "suffix", "distribution_url",
   "security_disabled", "cpu_arch", "data_instance_type", "data_node_count",
   "dist_version", "min_distribution", "single_node_cluster",
   "server_access_type", "restrict_server_access_to", "use_50_percent_heap",
   "is_internal", "custom_deploy_params", "admin_password",
   "cluster_endpoint", "workload_type", "pipeline",
   "custom_benchmark_params", "s3_bucket"]

/-- Looking up a key skips a prefix none of whose keys can equal it. -/
theorem lookupKey_skip (k : String) (keys : List String)
    (l1 l2 : List (String × JVal)) (hk : keys.contains k = false)
    (hall : l1.all (fun p => keys.contains p.1) = true) :
    lookupKey k (l1 ++ l2) = lookupKey k l2 := by
  induction l1 with
  | nil => rfl
  | cons hd tl ih =>
    obtain ⟨k2, v⟩ := hd
    simp only [List.all_cons, Bool.and_eq_true] at hall
    have hne : k2 ≠ k := by
      intro he
      rw [he] at hall
      rw [hall.1] at hk
      cases hk
    simp only [List.cons_append, lookupKey, if_neg hne]
    exact ih hall.2

/-- Every key of the build-config spread is a non-EC2 key. -/
theorem buildSection_keys (t : SelectedTasks) (c : Config) :
    (buildSection t c).all (fun p => nonEC2Keys.contains p.1) = true := by
  unfold buildSection; split <;> rfl

/-- Every key of the deploy-config spread is a non-EC2 key. -/
theorem deploySection_keys (t : SelectedTasks) (c : Config) :
    (deploySection t c).all (fun p => nonEC2Keys.contains p.1) = true := by
  unfold deploySection; split_ifs <;> rfl

/-- Looking up an EC2-only key in the payload resolves to the
EC2-benchmark sub-group (followed by the s3 key), guarded by benchmark
selection. -/
theorem lookupKey_payload_ec2 (t : SelectedTasks) (c : Config) (k : String)
    (hk : nonEC2Keys.contains k = false) :
    lookupKey k (buildRequestPayload t c) =
      if t.benchmark then
        lookupKey k (ec2Section t c ++ [("s3_bucket", JVal.str c.s3_bucket)])
      else none := by
  unfold buildRequestPayload
  simp only [List.append_assoc]
  rw [lookupKey_skip k nonEC2Keys _ _ hk (buildSection_keys t c),
      lookupKey_skip k nonEC2Keys _ _ hk (deploySection_keys t c)]
  unfold benchmarkSection
  cases hbm : t.benchmark
  · have hs3 : "s3_bucket" ≠ k := by
      intro he
      rw [← he] at hk
      cases hk
    simp only [Bool.false_eq_true, if_false, List.nil_append, lookupKey,
      if_neg hs3]
  · simp only [if_true]
    rw [List.append_assoc, List.append_assoc]
    rw [lookupKey_skip k nonEC2Keys _ _ hk (by split <;> rfl)]
    rw [lookupKey_skip k nonEC2Keys _ _ hk (by rfl)]

/-- C2 (counterexample): with only benchmark selected (deploy off), the
payload contains none of the EC2-benchmark sub-fields, refuting
"included iff benchmark is selected": the EC2 spread inside the
benchmark block is additionally guarded by `selectedTasks.deploy`. -/
theorem c2_counterexample :
    (SelectedTasks.benchmark ⟨false, false, true⟩ = true) ∧
    lookupKey "use_ec2_benchmark"
      (buildRequestPayload ⟨false, false, true⟩ defaultConfig) = none ∧
    lookupKey "instance_type"
      (buildRequestPayload ⟨false, false, true⟩ defaultConfig) = none ∧
    lookupKey "key_name"
      (buildRequestPayload ⟨false, false, true⟩ defaultConfig) = none ∧
    lookupKey "timeout_minutes"
      (buildRequestPayload ⟨false, false, true⟩ defaultConfig) = none := by
  decide

/-- C2 (amended): the payload contains the EC2-benchmark sub-fields
`use_ec2_benchmark`, `instance_type`, `key_name`, `timeout_minutes`
iff BOTH benchmark and deploy are selected, with `instance_type`
defaulting to `"t4g.medium"` and `timeout_minutes` defaulting to `60`
when the stored values are falsy (`""` resp. `0`). -/
theorem c2_ec2_fields_iff_benchmark_and_deploy (t : SelectedTasks)
    (c : Config) :
    (lookupKey "use_ec2_benchmark" (buildRequestPayload t c) =
      if t.benchmark && t.deploy then some (JVal.bool c.use_ec2_benchmark)
      else none) ∧
    (lookupKey "instance_type" (buildRequestPayload t c) =
      if t.benchmark && t.deploy then
        some (JVal.str (if c.instance_type == "" then "t4g.medium"
                        else c.instance_type))
      else none) ∧
    (lookupKey "key_name" (buildRequestPayload t c) =
      if t.benchmark && t.deploy then some (JVal.str c.key_name)
      else none) ∧
    (lookupKey "timeout_minutes" (buildRequestPayload t c) =
      if t.benchmark && t.deploy then
        some (JVal.nat (if c.timeout_minutes == 0 then 60
                        else c.timeout_minutes))
      else none) := by
  refine ⟨?_, ?_, ?_, ?_⟩
  · rw [lookupKey_payload_ec2 t c _ (by rfl)]
    cases hbm : t.benchmark
    · rfl
    · cases hd : t.deploy
      · unfold ec2Section; rw [hd]; rfl
      · unfold ec2Section; rw [hd]; rfl
  · rw [lookupKey_payload_ec2 t c _ (by rfl)]
    cases hbm : t.benchmark
    · rfl
    · cases hd : t.deploy
      · unfold ec2Section; rw [hd]; rfl
      · unfold ec2Section; rw [hd]; rfl
  · rw [lookupKey_payload_ec2 t c _ (by rfl)]
    cases hbm : t.benchmark
    · rfl
    · cases hd : t.deploy
      · unfold ec2Section; rw [hd]; rfl
      · unfold ec2Section; rw [hd]; rfl
  · rw [lookupKey_payload_ec2 t c _ (by rfl)]
    cases hbm : t.benchmark
    · rfl
    · cases hd : t.deploy
      · unfold ec2Section; rw [hd]; rfl
      · unfold ec2Section; rw [hd]
        by_cases hs : (c.subnet_id != "") = true <;> simp [hs, lookupKey]

/-- The configuration of §8's end-to-end benchmark-only scenario:
defaults with `cluster_endpoint="http://x"`, `workload_type="percolator"`
and `s3_bucket="b"`. -/
def c6Config : Config :=
  { defaultConfig with
      cluster_endpoint := "http://x"
      workload_type := "percolator"
      s3_bucket := "b" }

/-- C6 (counterexample): in the benchmark-only end-to-end scenario the
validation list is empty, but the assembled payload is NOT exactly the
four-key object `{cluster_endpoint, workload_type, pipeline, s3_bucket}`:
it has five keys, additionally carrying `custom_benchmark_params` (the
default empty list), which `handleLaunchJob` always includes in the
benchmark block. -/
theorem c6_counterexample :
    getValidationErrors ⟨false, false, true⟩ c6Config = [] ∧
    buildRequestPayload ⟨false, false, true⟩ c6Config ≠
      [("cluster_endpoint", JVal.str "http://x"),
       ("workload_type", JVal.str "percolator"),
       ("pipeline", JVal.str "benchmark-only"),
       ("s3_bucket", JVal.str "b")] ∧
    lookupKey "custom_benchmark_params"
      (buildRequestPayload ⟨false, false, true⟩ c6Config) =
        some (JVal.params []) := by decide

/-- C6 (amended): the benchmark-only end-to-end scenario yields no
validation errors, and the assembled payload is exactly
`{cluster_endpoint:"http://x", workload_type:"percolator",
pipeline:"benchmark-only", custom_benchmark_params:[], s3_bucket:"b"}` —
the claimed object plus the always-included default-empty
`custom_benchmark_params`. -/
theorem c6_benchmark_only_payload :
    getValidationErrors ⟨false, false, true⟩ c6Config = [] ∧
    buildRequestPayload ⟨false, false, true⟩ c6Config =
      [("cluster_endpoint", JVal.str "http://x"),
       ("workload_type", JVal.str "percolator"),
       ("pipeline", JVal.str "benchmark-only"),
       ("custom_benchmark_params", JVal.params []),
       ("s3_bucket", JVal.str "b")] := by decide

/-- The task argument of `handleTaskToggle`. -/
inductive Task where
  | build
  | deploy
  | benchmark
deriving DecidableEq, Repr

/-- `{...prev, [task]: !prev[task]}` — flip the selected flag of one task. -/
def toggleFlag (task : Task) (prev : SelectedTasks) : SelectedTasks :=
  match task with
  | .build => { prev with build := !prev.build }
  | .deploy => { prev with deploy := !prev.deploy }
  | .benchmark => { prev with benchmark := !prev.benchmark }

/-- `handleTaskToggle` (clusterDevUI.js lines 167–185): flip the task's
flag; when deploy is being unselected (`task === "deploy" && prev.deploy
&& !newTasks.deploy`), also reset the EC2-related configuration fields
to their defaults. -/
def handleTaskToggle (task : Task) (prev : SelectedTasks) (cfg : Config) :
    SelectedTasks × Config :=
  let newTasks := toggleFlag task prev
  let newCfg :=
    if task = Task.deploy ∧ prev.deploy = true ∧ newTasks.deploy = false then
      { cfg with
          use_ec2_benchmark := false
          instance_type := "t4g.medium"
          key_name := ""
          subnet_id := ""
          timeout_minutes := 60 }
    else cfg
  (newTasks, newCfg)

/-- C10: toggling deploy off resets exactly the EC2-related fields
(`use_ec2_benchmark := false`, `instance_type := "t4g.medium"`,
`key_name := ""`, `subnet_id := ""`, `timeout_minutes := 60`) and leaves
every other configuration field and the other two flags unchanged (the
record updates state precisely that frame); toggling deploy on, or
toggling build or benchmark, changes no configuration field and flips
only the toggled flag. -/
theorem c10_task_toggle_frame (prev : SelectedTasks) (cfg : Config) :
    (handleTaskToggle Task.deploy prev cfg =
      ({ prev with deploy := !prev.deploy },
       if prev.deploy then
         { cfg with
             use_ec2_benchmark := false
             instance_type := "t4g.medium"
             key_name := ""
             subnet_id := ""
             timeout_minutes := 60 }
       else cfg)) ∧
    (handleTaskToggle Task.build prev cfg =
      ({ prev with build := !prev.build }, cfg)) ∧
    (handleTaskToggle Task.benchmark prev cfg =
      ({ prev with benchmark := !prev.benchmark }, cfg)) := by
  obtain ⟨b, d, bm⟩ := prev
  cases d <;>
    simp [handleTaskToggle, toggleFlag]

/-!
Job registry refresh: `fetchJobs`/`fetchJobDetails` (clusterDevUI.js
lines 72–137).  The network is abstracted as a map from job id to the
detail endpoint's outcome: a well-formed detail payload, a non-ok
response, or a thrown fetch error.  The diagnostic console lines the
source writes on the two failure paths (`console.warn` / `console.error`)
are returned alongside the record.
-/

/-- The detail payload of `GET /jobs/{id}` as far as `fetchJobDetails`
reads it.  `display_id = 0` models a missing/zero (falsy) display id;
task values and config entries are opaque. -/
structure JobDetailResponse where
  job_id : String
  display_id : Nat
  tasks : List (String × JVal)
  config : List (String × JVal)
  created_at : String
deriving DecidableEq, Repr

/-- The frontend job record `fetchJobDetails` constructs. -/
structure JobRecord where
  id : String
  jobId : String
  displayId : Nat
  tasks : List (String × Bool)
  config : List (String × JVal)
  timestamp : String
deriving DecidableEq, Repr

/-- The success branch of `fetchJobDetails`: task-selection flags are the
keys of `jobDetails.tasks` each mapped to `true`; `display_id || 0`
keeps a `Nat` display id as is.  The `new Date(created_at)
.toLocaleString()` display formatting is an environment locale rendering
of `created_at`, kept here as the raw value (no claim inspects it). -/
def jobOfDetail (jd : JobDetailResponse) : JobRecord where
  id := jd.job_id
  jobId := jd.job_id
  displayId := jd.display_id
  tasks := jd.tasks.map (fun p => (p.1, true))
  config := jd.config
  timestamp := jd.created_at

/-- Outcome of one `GET /jobs/{id}` detail fetch: well-formed response,
non-ok response, or thrown fetch error. -/
inductive DetailFetchOutcome where
  | ok (jd : JobDetailResponse)
  | httpError
  | networkError
deriving DecidableEq, Repr

/-- A failed detail fetch (either failure path). -/
def isDetailFailure : DetailFetchOutcome → Bool
  | .ok _ => false
  | .httpError => true
  | .networkError => true

/-- `fetchJobDetails` (lines 72–100): on a well-formed response build
the record; on a non-ok response `console.warn("Failed to fetch details
for job <id>")` and return `null`; on a thrown error
`console.error("Error fetching job details for <id>:", error)` and
return `null`.  Returns the record (or `none`) together with the
diagnostic console lines written. -/
def fetchJobDetails (jobId : String) (outcome : DetailFetchOutcome) :
    Option JobRecord × List String :=
  match outcome with
  | .ok jd => (some (jobOfDetail jd), [])
  | .httpError => (none, ["Failed to fetch details for job " ++ jobId])
  | .networkError =>
    (none, ["Error fetching job details for " ++ jobId ++ ":"])

/-- One entry of the `GET /jobs` summary listing as `fetchJobs` reads
it. -/
structure BackendJobSummary where
  job_id : String
  display_id : Nat
deriving DecidableEq, Repr

/-- The display-id backfill loop body (lines 121–126): the summary
listing is authoritative for `displayId` when it lists the job with a
truthy `display_id`. -/
def reconcileDisplayId (summaries : List BackendJobSummary)
    (job : JobRecord) : JobRecord :=
  match summaries.find? (fun bj => bj.job_id == job.jobId) with
  | some bj =>
    if bj.display_id ≠ 0 then { job with displayId := bj.display_id }
    else job
  | none => job

/-- `fetchJobs` (lines 103–137) on a successful listing fetch: fetch
details for every listed job, drop the failed ones (`filter (job =>
job !== null)`), backfill display ids from the listing, and replace the
registry with the result; the second component collects the diagnostic
console lines of the detail fetches in listing order. -/
def fetchJobs (summaries : List BackendJobSummary)
    (net : String → DetailFetchOutcome) : List JobRecord × List String :=
  let results :=
    summaries.map (fun bj => fetchJobDetails bj.job_id (net bj.job_id))
  let validJobs := (results.map Prod.fst).filterMap id
  ((validJobs.map (reconcileDisplayId summaries)),
   (results.map Prod.snd).flatten)

/-- C7: for every refresh whose listing returns three jobs and in which
exactly one of the three detail fetches fails — whichever of the three
positions the failing job occupies, and on either failure path — the
refreshed registry is exactly the two records whose detail fetches
succeeded (display ids reconciled against the listing), and the sole
diagnostic warning line is the failing fetch's; the refresh does not
abort. -/
theorem c7_partial_refresh (b1 b2 b3 : BackendJobSummary)
    (net : String → DetailFetchOutcome) :
    (∀ jd2 jd3 : JobDetailResponse,
      isDetailFailure (net b1.job_id) = true →
      net b2.job_id = .ok jd2 → net b3.job_id = .ok jd3 →
        (fetchJobs [b1, b2, b3] net).1 =
          [reconcileDisplayId [b1, b2, b3] (jobOfDetail jd2),
           reconcileDisplayId [b1, b2, b3] (jobOfDetail jd3)] ∧
        (fetchJobs [b1, b2, b3] net).1.length = 2 ∧
        (fetchJobs [b1, b2, b3] net).2 =
          (fetchJobDetails b1.job_id (net b1.job_id)).2 ∧
        (fetchJobs [b1, b2, b3] net).2.length = 1) ∧
    (∀ jd1 jd3 : JobDetailResponse,
      net b1.job_id = .ok jd1 →
      isDetailFailure (net b2.job_id) = true →
      net b3.job_id = .ok jd3 →
        (fetchJobs [b1, b2, b3] net).1 =
          [reconcileDisplayId [b1, b2, b3] (jobOfDetail jd1),
           reconcileDisplayId [b1, b2, b3] (jobOfDetail jd3)] ∧
        (fetchJobs [b1, b2, b3] net).1.length = 2 ∧
        (fetchJobs [b1, b2, b3] net).2 =
          (fetchJobDetails b2.job_id (net b2.job_id)).2 ∧
        (fetchJobs [b1, b2, b3] net).2.length = 1) ∧
    (∀ jd1 jd2 : JobDetailResponse,
      net b1.job_id = .ok jd1 → net b2.job_id = .ok jd2 →
      isDetailFailure (net b3.job_id) = true →
        (fetchJobs [b1, b2, b3] net).1 =
          [reconcileDisplayId [b1, b2, b3] (jobOfDetail jd1),
           reconcileDisplayId [b1, b2, b3] (jobOfDetail jd2)] ∧
        (fetchJobs [b1, b2, b3] net).1.length = 2 ∧
        (fetchJobs [b1, b2, b3] net).2 =
          (fetchJobDetails b3.job_id (net b3.job_id)).2 ∧
        (fetchJobs [b1, b2, b3] net).2.length = 1) := by
  refine ⟨?_, ?_, ?_⟩
  · intro jd2 jd3 hf h2 h3
    cases hnet : net b1.job_id with
    | ok jd => rw [hnet] at hf; simp [isDetailFailure] at hf
    | httpError =>
      refine ⟨?_, ?_, ?_, ?_⟩ <;>
        simp [fetchJobs, fetchJobDetails, hnet, h2, h3]
    | networkError =>
      refine ⟨?_, ?_, ?_, ?_⟩ <;>
        simp [fetchJobs, fetchJobDetails, hnet, h2, h3]
  · intro jd1 jd3 h1 hf h3
    cases hnet : net b2.job_id with
    | ok jd => rw [hnet] at hf; simp [isDetailFailure] at hf
    | httpError =>
      refine ⟨?_, ?_, ?_, ?_⟩ <;>
        simp [fetchJobs, fetchJobDetails, hnet, h1, h3]
    | networkError =>
      refine ⟨?_, ?_, ?_, ?_⟩ <;>
        simp [fetchJobs, fetchJobDetails, hnet, h1, h3]
  · intro jd1 jd2 h1 h2 hf
    cases hnet : net b3.job_id with
    | ok jd => rw [hnet] at hf; simp [isDetailFailure] at hf
    | httpError =>
      refine ⟨?_, ?_, ?_, ?_⟩ <;>
        simp [fetchJobs, fetchJobDetails, hnet, h1, h2]
    | networkError =>
      refine ⟨?_, ?_, ?_, ?_⟩ <;>
        simp [fetchJobs, fetchJobDetails, hnet, h1, h2]

/-- Concrete network for the C7 witness: the first listed job's detail
fetch returns a non-ok response, the other two succeed. -/
def w7netFirstFails : String → DetailFetchOutcome := fun s =>
  if s = "b" then .ok ⟨"b", 2, [], [], "t2"⟩
  else if s = "c" then .ok ⟨"c", 3, [], [], "t3"⟩
  else .httpError

/-- Concrete network for the C7 witness: the middle job's detail fetch
returns a non-ok response, the other two succeed. -/
def w7netSecondFails : String → DetailFetchOutcome := fun s =>
  if s = "a" then .ok ⟨"a", 1, [], [], "t1"⟩
  else if s = "c" then .ok ⟨"c", 3, [], [], "t3"⟩
  else .httpError

/-- Concrete network for the C7 witness: the last job's detail fetch
throws, the other two succeed. -/
def w7netThirdFails : String → DetailFetchOutcome := fun s =>
  if s = "a" then .ok ⟨"a", 1, [], [], "t1"⟩
  else if s = "b" then .ok ⟨"b", 2, [], [], "t2"⟩
  else .networkError

/-- C7 witness: on a concrete three-job listing, a refresh with the
first, middle, or last detail fetch failing keeps exactly the two
surviving records and emits exactly one warning line. -/
theorem c7_partial_refresh_witness :
    ((fetchJobs [⟨"a", 1⟩, ⟨"b", 2⟩, ⟨"c", 3⟩] w7netFirstFails).1.length = 2 ∧
     (fetchJobs [⟨"a", 1⟩, ⟨"b", 2⟩, ⟨"c", 3⟩] w7netFirstFails).2.length = 1) ∧
    ((fetchJobs [⟨"a", 1⟩, ⟨"b", 2⟩, ⟨"c", 3⟩] w7netSecondFails).1.length = 2 ∧
     (fetchJobs [⟨"a", 1⟩, ⟨"b", 2⟩, ⟨"c", 3⟩] w7netSecondFails).2.length = 1) ∧
    ((fetchJobs [⟨"a", 1⟩, ⟨"b", 2⟩, ⟨"c", 3⟩] w7netThirdFails).1.length = 2 ∧
     (fetchJobs [⟨"a", 1⟩, ⟨"b", 2⟩, ⟨"c", 3⟩] w7netThirdFails).2.length = 1) := by
  refine ⟨?_, ?_, ?_⟩
  · have h := (c7_partial_refresh ⟨"a", 1⟩ ⟨"b", 2⟩ ⟨"c", 3⟩ w7netFirstFails).1
      ⟨"b", 2, [], [], "t2"⟩ ⟨"c", 3, [], [], "t3"⟩
      (by decide) (by decide) (by decide)
    exact ⟨h.2.1, h.2.2.2⟩
  · have h := (c7_partial_refresh ⟨"a", 1⟩ ⟨"b", 2⟩ ⟨"c", 3⟩ w7netSecondFails).2.1
      ⟨"a", 1, [], [], "t1"⟩ ⟨"c", 3, [], [], "t3"⟩
      (by decide) (by decide) (by decide)
    exact ⟨h.2.1, h.2.2.2⟩
  · have h := (c7_partial_refresh ⟨"a", 1⟩ ⟨"b", 2⟩ ⟨"c", 3⟩ w7netThirdFails).2.2
      ⟨"a", 1, [], [], "t1"⟩ ⟨"b", 2, [], [], "t2"⟩
      (by decide) (by decide) (by decide)
    exact ⟨h.2.1, h.2.2.2⟩

/-!
Status poller: `useJobStatusPolling` (JobStatusPolling.js).  The hook's
mutable pieces (`jobStatus`, `logs`, `hasInitializedRef`, `intervalRef`,
plus an issued-fetch counter and the diagnostic console, which the
source writes via `console.error`) form one state record.  Events are
the mount effect (first fetch plus `setInterval`), an interval tick, and
teardown; each fetch's outcome comes from the environment.  The
`[jobStatus]` effect that clears the interval on a terminal status runs
exactly after `setJobStatus` was called, i.e. after a well-formed (ok)
response.
-/

/-- The status payload as far as the poller reads it (`data.status`,
`data.error`). -/
structure StatusData where
  status : String
  error : Option String
deriving DecidableEq, Repr

/-- A poller log entry (`{timestamp, message, type}`). -/
structure LogEntry where
  timestamp : String
  message : String
  type : String
deriving DecidableEq, Repr

/-- Outcome of one status fetch: well-formed response, non-ok response,
or thrown network error. -/
inductive FetchResult where
  | ok (data : StatusData)
  | httpError (code : Nat)
  | networkError
deriving DecidableEq, Repr

/-- The poller's state. -/
structure PollerState where
  jobStatus : Option StatusData
  logs : List LogEntry
  hasInitialized : Bool
  intervalActive : Bool
  fetchCount : Nat
  console : List String
deriving DecidableEq, Repr

/-- State at hook initialisation: no snapshot, no logs, not announced,
no interval. -/
def initialPoller : PollerState :=
  { jobStatus := none, logs := [], hasInitialized := false,
    intervalActive := false, fetchCount := 0, console := [] }

/-- `addLog` (JobStatusPolling.js lines 20–23): append one entry. -/
def addLog (now message type : String) (st : PollerState) : PollerState :=
  { st with logs := st.logs ++ [⟨now, message, type⟩] }

/-- The terminal statuses (`["completed", "failed", "cancelled"]`). -/
def terminalStatuses : List String := ["completed", "failed", "cancelled"]

/-- `data.error || "Unknown error"`. -/
def errMsg (data : StatusData) : String :=
  match data.error with
  | some e => if e = "" then "Unknown error" else e
  | none => "Unknown error"

/-- `pollJobStatus` (lines 26–52): bail out without fetching when
`jobId` is null; otherwise issue one fetch.  A well-formed response
replaces the snapshot and, on the first one only, appends the load
announcement plus a status-specific line when that first status is
already terminal.  A non-ok response or a thrown error only writes to
the diagnostic console. -/
def pollJobStatus (jobId : Option String) (jobDisplayId : Nat)
    (now : String) (result : FetchResult) (st : PollerState) : PollerState :=
  match jobId with
  | none => st
  | some _ =>
    match result with
    | .ok data =>
      let st := { st with fetchCount := st.fetchCount + 1,
                          jobStatus := some data }
      if st.hasInitialized then st
      else
        let stat := data.status
        let st := addLog now s!"Job #{jobDisplayId} loaded with status: {stat}"
          "info" st
        let st := { st with hasInitialized := true }
        if data.status = "completed" then
          addLog now s!"✅ Job #{jobDisplayId} completed successfully!" "info" st
        else if data.status = "failed" then
          let em := errMsg data
          addLog now s!"❌ Job #{jobDisplayId} failed: {em}" "info" st
        else if data.status = "cancelled" then
          addLog now s!"🚫 Job #{jobDisplayId} was cancelled" "info" st
        else st
    | .httpError code =>
      { st with fetchCount := st.fetchCount + 1,
                console := st.console ++
                  [s!"Failed to fetch job status: {code}"] }
    | .networkError =>
      { st with fetchCount := st.fetchCount + 1,
                console := st.console ++ ["Error polling job status:"] }

/-- The `[jobStatus]` effect (lines 69–79): once the snapshot shows a
terminal status, clear and null the interval handle. -/
def settleEffect (st : PollerState) : PollerState :=
  match st.jobStatus with
  | some d =>
    if terminalStatuses.contains d.status then
      { st with intervalActive := false }
    else st
  | none => st

/-- One complete poll cycle: the fetch of `pollJobStatus`, then the
`[jobStatus]` effect, which React re-runs exactly when `setJobStatus`
was called — i.e. after a well-formed response with a job id present. -/
def pollResolve (jobId : Option String) (jobDisplayId : Nat)
    (now : String) (result : FetchResult) (st : PollerState) : PollerState :=
  let st2 := pollJobStatus jobId jobDisplayId now result st
  match jobId, result with
  | some _, .ok _ => settleEffect st2
  | _, _ => st2

/-- The mount effect (lines 55–66): when a job id is present and no
interval is owned yet, poll immediately and start the 60-second
interval. -/
def attach (jobId : Option String) (jobDisplayId : Nat) (now : String)
    (result : FetchResult) (st : PollerState) : PollerState :=
  if jobId.isSome && !st.intervalActive then
    pollResolve jobId jobDisplayId now result { st with intervalActive := true }
  else st

/-- One 60-second interval firing: runs a poll cycle only while the
interval is owned. -/
def tick (jobId : Option String) (jobDisplayId : Nat) (now : String)
    (result : FetchResult) (st : PollerState) : PollerState :=
  if st.intervalActive then pollResolve jobId jobDisplayId now result st
  else st

/-- A later interval firing: its time and the fetch outcome the
environment would deliver. -/
structure TickEvent where
  now : String
  result : FetchResult
deriving DecidableEq, Repr

/-- Run a sequence of interval firings. -/
def runTicks (jobId : Option String) (jobDisplayId : Nat)
    (evs : List TickEvent) (st : PollerState) : PollerState :=
  evs.foldl (fun s e => tick jobId jobDisplayId e.now e.result s) st

/-- A settled poller: snapshot present with terminal status and the
interval cleared. -/
def isSettled (st : PollerState) : Bool :=
  match st.jobStatus with
  | some d => terminalStatuses.contains d.status && !st.intervalActive
  | none => false

/-- C3: a poller whose first fetch returns a well-formed `completed`
response appends exactly the two log entries (load announcement and
completion announcement), ends settled (terminal snapshot, interval
cleared), and every subsequent interval firing is a no-op — no recurring
tick remains scheduled. -/
theorem c3_first_fetch_completed (j : String) (d : Nat) (now : String)
    (err : Option String) :
    (attach (some j) d now (.ok ⟨"completed", err⟩) initialPoller).logs =
      [⟨now, s!"Job #{d} loaded with status: completed", "info"⟩,
       ⟨now, s!"✅ Job #{d} completed successfully!", "info"⟩] ∧
    (attach (some j) d now (.ok ⟨"completed", err⟩) initialPoller).jobStatus =
      some ⟨"completed", err⟩ ∧
    isSettled (attach (some j) d now (.ok ⟨"completed", err⟩) initialPoller) =
      true ∧
    (attach (some j) d now (.ok ⟨"completed", err⟩)
      initialPoller).intervalActive = false ∧
    (attach (some j) d now (.ok ⟨"completed", err⟩)
      initialPoller).fetchCount = 1 ∧
    (∀ (now2 : String) (r : FetchResult),
      tick (some j) d now2 r
          (attach (some j) d now (.ok ⟨"completed", err⟩) initialPoller) =
        attach (some j) d now (.ok ⟨"completed", err⟩) initialPoller) := by
  refine ⟨?_, rfl, rfl, rfl, rfl, fun _ _ => rfl⟩
  simp [attach, pollResolve, pollJobStatus, addLog, settleEffect,
    initialPoller, terminalStatuses, String.append_assoc]
  rfl

/-- A well-formed response always replaces the snapshot wholesale. -/
theorem pollJobStatus_ok_jobStatus (j : String) (d : Nat) (now : String)
    (data : StatusData) (st : PollerState) :
    (pollJobStatus (some j) d now (.ok data) st).jobStatus = some data := by
  simp only [pollJobStatus]
  split_ifs <;> rfl

/-- The `[jobStatus]` effect clears the interval once the snapshot is
terminal. -/
theorem settleEffect_of_terminal (st : PollerState) (data : StatusData)
    (hjs : st.jobStatus = some data)
    (h : terminalStatuses.contains data.status = true) :
    (settleEffect st).intervalActive = false := by
  have hmem : data.status ∈ terminalStatuses := by simpa using h
  simp [settleEffect, hjs, hmem]

/-- A poll cycle that observes a terminal status from a well-formed
response leaves the interval cleared. -/
theorem pollResolve_ok_terminal (j : String) (d : Nat) (now : String)
    (data : StatusData)
    (h : terminalStatuses.contains data.status = true) (st : PollerState) :
    (pollResolve (some j) d now (.ok data) st).intervalActive = false := by
  simp only [pollResolve]
  exact settleEffect_of_terminal _ data
    (pollJobStatus_ok_jobStatus j d now data st) h

/-- A tick with no owned interval does nothing — in particular it issues
no fetch. -/
theorem tick_of_inactive (jobId : Option String) (d : Nat) (now : String)
    (r : FetchResult) (st : PollerState) (h : st.intervalActive = false) :
    tick jobId d now r st = st := by
  simp [tick, h]

/-- No sequence of ticks moves a poller whose interval is cleared. -/
theorem runTicks_of_inactive (jobId : Option String) (d : Nat)
    (evs : List TickEvent) (st : PollerState)
    (h : st.intervalActive = false) :
    runTicks jobId d evs st = st := by
  induction evs with
  | nil => rfl
  | cons e tl ih =>
    show runTicks jobId d tl (tick jobId d e.now e.result st) = st
    rw [tick_of_inactive jobId d e.now e.result st h]
    exact ih

/-- C4: after a poll cycle observes a terminal status from a well-formed
response, no amount of further interval firings changes the poller —
in particular the fetch count never increases after settlement. -/
theorem c4_settled_never_refetches (j : String) (d : Nat) (now : String)
    (data : StatusData) (st : PollerState)
    (h : terminalStatuses.contains data.status = true)
    (evs : List TickEvent) :
    runTicks (some j) d evs (pollResolve (some j) d now (.ok data) st) =
      pollResolve (some j) d now (.ok data) st ∧
    (runTicks (some j) d evs
        (pollResolve (some j) d now (.ok data) st)).fetchCount =
      (pollResolve (some j) d now (.ok data) st).fetchCount := by
  have hin := pollResolve_ok_terminal j d now data h st
  have hrun := runTicks_of_inactive (some j) d evs _ hin
  exact ⟨hrun, by rw [hrun]⟩

/-- C4 witness: a freshly settled poller (first fetch observed
`completed`) is unmoved by two later interval firings, one delivering a
`running` response and one a network error. -/
theorem c4_settled_never_refetches_witness :
    runTicks (some "job") 1
        [⟨"t1", .ok ⟨"running", none⟩⟩, ⟨"t2", .networkError⟩]
        (pollResolve (some "job") 1 "t0" (.ok ⟨"completed", none⟩)
          initialPoller) =
      pollResolve (some "job") 1 "t0" (.ok ⟨"completed", none⟩)
        initialPoller ∧
    (runTicks (some "job") 1
        [⟨"t1", .ok ⟨"running", none⟩⟩, ⟨"t2", .networkError⟩]
        (pollResolve (some "job") 1 "t0" (.ok ⟨"completed", none⟩)
          initialPoller)).fetchCount =
      (pollResolve (some "job") 1 "t0" (.ok ⟨"completed", none⟩)
        initialPoller).fetchCount :=
  c4_settled_never_refetches "job" 1 "t0" ⟨"completed", none⟩ initialPoller
    (by decide) [⟨"t1", .ok ⟨"running", none⟩⟩, ⟨"t2", .networkError⟩]

/-- C8: a failed fetch — non-ok response or network error — changes
nothing but the issued-fetch count and the diagnostic console: the
record updates say the logs, the snapshot, the announced flag and the
interval ownership are all untouched, and exactly one console line
reports the failure. -/
theorem c8_failed_fetch_invisible (j : String) (d : Nat) (now : String)
    (st : PollerState) :
    (∀ code : Nat,
      pollResolve (some j) d now (.httpError code) st =
        { st with fetchCount := st.fetchCount + 1,
                  console := st.console ++
                    [s!"Failed to fetch job status: {code}"] }) ∧
    pollResolve (some j) d now .networkError st =
      { st with fetchCount := st.fetchCount + 1,
                console := st.console ++ ["Error polling job status:"] } :=
  ⟨fun _ => rfl, rfl⟩

/-!
Benchmark results table parsing: `BenchmarkResultsTable`
(BenchmarkResultsTable.js lines 9–35), data shaping only.
-/

/-- `/^[-+|]+$/.test(line)`: nonempty and consisting solely of `-`, `+`,
`|`. -/
def isSeparatorLine (line : String) : Bool :=
  !line.data.isEmpty &&
    line.data.all (fun c => c == '-' || c == '+' || c == '|')

/-- Lines 11–13: split the blob into lines, keeping those with nonblank
trim that are not separator-only. -/
def benchLines (resultsText : String) : List String :=
  (jsSplit resultsText '\n').filter
    (fun line => jsTrim line != "" && !(isSeparatorLine line))

/-- Case-sensitive substring search over character lists. -/
def strContains (hay needle : List Char) : Bool :=
  (List.range (hay.length + 1)).any (fun i => needle.isPrefixOf (hay.drop i))

/-- `/Metric/i.test(line)`: the line contains "Metric" up to ASCII
case. -/
def containsMetric (line : String) : Bool :=
  strContains (line.data.map Char.toLower) "metric".data

/-- Lines 19–23: header column names — split on `|`, trim, keep truthy
(nonempty) cells. -/
def parseHeaderCols (headerLine : String) : List String :=
  ((jsSplit headerLine '|').map jsTrim).filter (fun s => s != "")

/-- Lines 28–32: one data row — split on `|`, trim each cell, drop the
first and last cells (`slice(1, -1)`, the pieces outside the leading and
trailing delimiters). -/
def processRow (line : String) : List String :=
  (((jsSplit line '|').map jsTrim).drop 1).dropLast

/-- The parsed table: header column names and the retained data rows. -/
structure BenchTable where
  header : List String
  rows : List (List String)
deriving DecidableEq, Repr

/-- The header columns at the found header index. -/
def colNamesAt (lines : List String) (headerIdx : Nat) : List String :=
  parseHeaderCols (lines.getD headerIdx "")

/-- Lines 26–33: the data rows after the header whose cell count matches
the header's column count. -/
def dataRowsAt (lines : List String) (headerIdx : Nat) : List (List String) :=
  ((lines.drop (headerIdx + 1)).map processRow).filter
    (fun row => row.length == (colNamesAt lines headerIdx).length)

/-- The whole component as a parse: `none` models the "No table data
found." / "No benchmark table data found." renderings (no header line,
or no surviving data row). -/
def parseBenchmarkTable (resultsText : String) : Option BenchTable :=
  match (benchLines resultsText).findIdx? containsMetric with
  | none => none
  | some headerIdx =>
    if (dataRowsAt (benchLines resultsText) headerIdx).isEmpty then none
    else some ⟨colNamesAt (benchLines resultsText) headerIdx,
               dataRowsAt (benchLines resultsText) headerIdx⟩

/-- C9: for a blob whose (filtered) lines have a header containing
"Metric" at index `i` and at least one malformed data row (cell count
differing from the header's column count): separator-only lines never
survive the line filter, and any parsed table has exactly the header's
columns, only rows whose cell count matches the header (so every
malformed row is excluded), and every matching data row retained. -/
theorem c9_malformed_rows_excluded (blob : String) (i : Nat)
    (hidx : (benchLines blob).findIdx? containsMetric = some i)
    (_hmal : ∃ line ∈ (benchLines blob).drop (i + 1),
      (processRow line).length ≠
        (parseHeaderCols ((benchLines blob).getD i "")).length) :
    (∀ l : String, isSeparatorLine l = true → l ∉ benchLines blob) ∧
    (∀ t : BenchTable, parseBenchmarkTable blob = some t →
      t.header = parseHeaderCols ((benchLines blob).getD i "") ∧
      (∀ r ∈ t.rows, r.length = t.header.length) ∧
      (∀ line ∈ (benchLines blob).drop (i + 1),
        (processRow line).length ≠ t.header.length →
          processRow line ∉ t.rows) ∧
      (∀ line ∈ (benchLines blob).drop (i + 1),
        (processRow line).length = t.header.length →
          processRow line ∈ t.rows)) := by
  constructor
  · intro l hsep hmem
    have hfalse : isSeparatorLine l = false := by
      simp only [benchLines, List.mem_filter, Bool.and_eq_true,
        Bool.not_eq_true'] at hmem
      exact hmem.2.2
    rw [hsep] at hfalse
    cases hfalse
  · intro t ht
    simp only [parseBenchmarkTable] at ht
    rw [hidx] at ht
    dsimp only at ht
    by_cases hempty : (dataRowsAt (benchLines blob) i).isEmpty = true
    · rw [if_pos hempty] at ht
      cases ht
    · rw [if_neg hempty] at ht
      injection ht with ht
      subst ht
      refine ⟨rfl, ?_, ?_, ?_⟩
      · intro r hr
        have hb := (List.mem_filter.mp hr).2
        simp only [beq_iff_eq] at hb
        exact hb
      · intro line hline hne hmem
        have hb := (List.mem_filter.mp hmem).2
        simp only [beq_iff_eq] at hb
        exact hne hb
      · intro line hline heq
        exact List.mem_filter.mpr
          ⟨List.mem_map_of_mem processRow hline, by simp [heq, colNamesAt]⟩

/-- C9 witness: in a concrete blob with header `| Metric | Value |`, a
separator line, one well-formed row and one malformed row, the separator
line is filtered out and the malformed row's cells are absent from the
parsed table. -/
theorem c9_malformed_rows_excluded_witness :
    ("|---|" : String) ∉
      benchLines "| Metric | Value |\n|---|\n| a | b |\n| c |" ∧
    processRow "| c |" ∉
      (BenchTable.mk ["Metric", "Value"] [["a", "b"]]).rows := by
  have h := c9_malformed_rows_excluded
    "| Metric | Value |\n|---|\n| a | b |\n| c |" 0 (by decide) (by decide)
  exact ⟨h.1 "|---|" (by decide),
    (h.2 ⟨["Metric", "Value"], [["a", "b"]]⟩ (by decide)).2.2.1 "| c |"
      (by decide) (by decide)⟩

end ClusterDev
